import Mathlib

/-!
Shallow embedding of the Todo backend (src/server/app) in Lean 4.

The backing store is modelled as an in-memory record of users and tasks,
kept in insertion order; each service operation is a pure function on that
record returning `Except HTTPError …`, mirroring the FastAPI services
raising `HTTPException`.  Timestamps are naturals; the JWT and the bcrypt
primitives, which live in external libraries (python-jose, passlib), are
modelled from the contracts the spec assigns them.
-/

namespace Todo

/-- `fastapi.HTTPException`: a status code and a detail message. -/
structure HTTPError where
  status : Nat
  detail : String
deriving DecidableEq, Repr

/-- Modelled from the spec: the salted one-way hash primitive
(`passlib` `CryptContext` with bcrypt) used by
`app/core/security.py` `get_password_hash` and `verify_password`; the
library itself is outside the repository.  The spec contract: one-way,
salted, two calls on the same input produce different digests yet both
verify; verification succeeds exactly for the hashed password.  We idealise
it as a collision-free salted hash: the digest records the salt and
(abstractly) the hashed body, and verification compares bodies. -/
structure Digest where
  salt : Nat
  body : String
deriving DecidableEq, Repr

/-- `get_password_hash` (app/core/security.py): hash the password under a
fresh salt.  The salt is made explicit; callers draw a fresh one from the
store state. -/
def get_password_hash (salt : Nat) (password : String) : Digest :=
  ⟨salt, password⟩

/-- `verify_password` (app/core/security.py): check the plain password
against the digest, ignoring the salt component. -/
def verify_password (plain : String) (hashed : Digest) : Bool :=
  plain == hashed.body

/-- One stateful hashing call: hash under the current salt counter and
advance it, modelling salt freshness across successive calls of
`pwd_context.hash`. -/
def hash_call (saltState : Nat) (password : String) : Digest × Nat :=
  (get_password_hash saltState password, saltState + 1)

/-- ORM model `User` (app/models/user.py): numeric primary key, unique
email, stored password digest. -/
structure User where
  id : Nat
  email : String
  hashed_password : Digest
deriving DecidableEq, Repr

/-- ORM model `Task` (app/models/task.py): numeric primary key, owning
user id, title (NOT NULL), optional description and due date, completed
flag, server-assigned created/updated timestamps. -/
structure Task where
  id : Nat
  user_id : Nat
  title : String
  description : Option String
  due_date : Option Nat
  completed : Bool
  created_at : Nat
  updated_at : Nat
deriving DecidableEq, Repr

/-- Pydantic schema `TaskUpdate` (app/schemas/task.py) with
`model_dump` and `exclude_unset` semantics: each field is `none` when the
request body omitted it and `some v` when it supplied `v`.  For the
nullable columns `description` and `due_date` the supplied value is itself
an `Option`, so an explicit `null` is `some none`.  The schema also admits
an explicit `null` for `title`, but `tasks.title` is NOT NULL so such a
request cannot commit; the embedding covers the omitted and
supplied-string cases. -/
structure TaskUpdate where
  title : Option String := none
  description : Option (Option String) := none
  due_date : Option (Option Nat) := none
  completed : Option Bool := none
deriving DecidableEq, Repr

/-- The backing store: users and tasks in insertion order, the next free
primary keys, and the salt counter of the hash primitive. -/
structure DB where
  users : List User
  tasks : List Task
  nextUserId : Nat
  nextSaltState : Nat
deriving DecidableEq, Repr

/-! ## CRUD accessors (app/crud) -/

/-- `get_task` (app/crud/task.py): `select(Task).where(Task.id == task_id)`
with `scalar_one_or_none`; the primary key is unique so this is the first
(and only) task with that id. -/
def get_task (db : DB) (task_id : Nat) : Option Task :=
  db.tasks.find? (fun t => t.id == task_id)

/-- `get_tasks_for_user` (app/crud/task.py):
`select(Task).where(Task.user_id == user_id).offset(skip).limit(limit)`.
Rows come back in insertion (rowid) order. -/
def get_tasks_for_user (db : DB) (user_id skip limit : Nat) : List Task :=
  (((db.tasks.filter (fun t => t.user_id == user_id)).drop skip).take limit)

/-- `get_user_by_email` (app/crud/user.py). -/
def get_user_by_email (db : DB) (email : String) : Option User :=
  db.users.find? (fun u => u.email == email)

/-- `create_user` (app/crud/user.py): build the User with the hashed
password, add and commit.  The primary key and a fresh salt come from the
store state. -/
def create_user (db : DB) (email password : String) : User × DB :=
  let u : User := ⟨db.nextUserId, email, get_password_hash db.nextSaltState password⟩
  (u, { db with
          users := db.users ++ [u]
          nextUserId := db.nextUserId + 1
          nextSaltState := db.nextSaltState + 1 })

/-- The `setattr` loop of `update_task` (app/crud/task.py): write exactly
the fields present in `updates.model_dump` with `exclude_unset`. -/
def applyUpdates (t : Task) (u : TaskUpdate) : Task :=
  { t with
      title := u.title.getD t.title
      description := u.description.getD t.description
      due_date := u.due_date.getD t.due_date
      completed := u.completed.getD t.completed }

/-- `update_task` (app/crud/task.py) together with the
`updated_at` column of app/models/task.py.  The `commit` emits an UPDATE
statement only when some column value actually changed (SQLAlchemy flushes
net changes; writing a value equal to the loaded one produces none), and
`updated_at` carries `onupdate` with the current time, which fires exactly
when that UPDATE is emitted. -/
def update_task (now : Nat) (t : Task) (u : TaskUpdate) : Task :=
  let t' := applyUpdates t u
  if t' = t then t else { t' with updated_at := now }

/-- Commit of a mutated task: the row with its id now holds the new
column values; everything else is untouched. -/
def replaceTask (db : DB) (t : Task) : DB :=
  { db with tasks := db.tasks.map (fun x => if x.id == t.id then t else x) }

/-! ## Services (app/services) -/

/-- `HTTPException(404, "Task not found")`. -/
def notFoundTask : HTTPError := ⟨404, "Task not found"⟩

/-- `HTTPException(403, "Unauthorized access")`. -/
def forbiddenTask : HTTPError := ⟨403, "Unauthorized access"⟩

/-- `HTTPException(404, "No tasks found")`. -/
def noTasksFound : HTTPError := ⟨404, "No tasks found"⟩

/-- `HTTPException(400, "Email already registered")`. -/
def emailRegistered : HTTPError := ⟨400, "Email already registered"⟩

/-- `list_user_tasks` (app/services/task.py): fetch the caller-owned page
and raise 404 when it is empty. -/
def list_user_tasks (db : DB) (user_id skip limit : Nat) :
    Except HTTPError (List Task) :=
  let tasks := get_tasks_for_user db user_id skip limit
  if tasks.isEmpty then .error noTasksFound else .ok tasks

/-- `get_existing_task` (app/services/task.py): existence first (404),
then ownership (403), then return the task. -/
def get_existing_task (db : DB) (user_id task_id : Nat) :
    Except HTTPError Task :=
  match get_task db task_id with
  | none => .error notFoundTask
  | some t => if t.user_id ≠ user_id then .error forbiddenTask else .ok t

/-- Python truthiness of a `Task` ORM instance: an object with neither a
bool nor a len hook is always truthy, so `not task` on a returned task is
always `False`. -/
def taskTruthy (_ : Task) : Bool := true

/-- `change_task` (app/services/task.py), line for line: the initial
`get_existing_task`, then the repeated `if not task` check, then the
repeated ownership check, then `update_task` committed into the store. -/
def change_task (db : DB) (user_id task_id : Nat) (u : TaskUpdate)
    (now : Nat) : Except HTTPError (Task × DB) :=
  match get_existing_task db user_id task_id with
  | .error e => .error e
  | .ok task =>
    if taskTruthy task = false then .error notFoundTask
    else if task.user_id ≠ user_id then .error forbiddenTask
    else
      let t' := update_task now task u
      .ok (t', replaceTask db t')

/-- `register_user` (app/services/user.py with app/crud/user.py): 400 when
the email is already present, leaving the store as it was; otherwise hash
and persist a new User. -/
def register_user (db : DB) (email password : String) :
    Except HTTPError User × DB :=
  match get_user_by_email db email with
  | some _ => (.error emailRegistered, db)
  | none =>
    let p := create_user db email password
    (.ok p.1, p.2)

/-! ## Token utility (app/core/security.py) -/

/-- The claim set the code encodes: an absolute expiry timestamp and an
optional subject string. -/
structure Claims where
  exp : Int
  sub : Option String
deriving DecidableEq, Repr

/-- Modelled from the spec: a token of the external signed-token primitive
(python-jose `jwt.encode`).  A signed token is its payload together with
the key it was signed under; a signature verifies exactly when the keys
match. -/
structure Token where
  claims : Claims
  key : String
deriving DecidableEq, Repr

/-- Modelled from the spec: `jose.jwt.encode`. -/
def jwtEncode (claims : Claims) (key : String) : Token :=
  ⟨claims, key⟩

/-- Modelled from the spec: `jose.jwt.decode` at time `now` — reject a bad
signature, reject an `exp` strictly in the past, otherwise yield the
payload. -/
def jwtDecode (tok : Token) (key : String) (now : Int) :
    Except String Claims :=
  if tok.key ≠ key then .error "Signature verification failed"
  else if tok.claims.exp < now then .error "Signature has expired"
  else .ok tok.claims

/-- `settings.SECRET_KEY` (app/core/config.py). -/
def SECRET_KEY : String := "CHANGE_ME_SECRET_KEY"

/-- `settings.ACCESS_TOKEN_EXPIRE_MINUTES` (app/core/config.py). -/
def ACCESS_TOKEN_EXPIRE_MINUTES : Int := 60

/-- `create_access_token` (app/core/security.py): expiry now plus the
configured duration, subject as given, signed with the process secret. -/
def create_access_token (sub : String) (now : Int) : Token :=
  jwtEncode ⟨now + ACCESS_TOKEN_EXPIRE_MINUTES * 60, some sub⟩ SECRET_KEY

/-- `decode_access_token` (app/core/security.py): decode, then `if not
sub` — in Python both a missing subject and an empty-string subject are
falsy and raise. -/
def decode_access_token (tok : Token) (now : Int) : Except String String :=
  match jwtDecode tok SECRET_KEY now with
  | .error e => .error e
  | .ok payload =>
    match payload.sub with
    | none => .error "Token missing subject"
    | some s => if s = "" then .error "Token missing subject" else .ok s

/-! ## Request-boundary validation (app/schemas/user.py) -/

/-- Pydantic validation of `UserCreate` at the API boundary: the password
field carries `min_length` 8, so a shorter password is rejected with a 422
before the service runs.  The `EmailStr` format check is not modelled. -/
def validate_user_create (email password : String) :
    Except HTTPError (String × String) :=
  if password.length < 8 then .error ⟨422, "validation error"⟩
  else .ok (email, password)

/-- The `POST /user/register` route (app/controllers/user.py): FastAPI
validates the body against `UserCreate`, then calls the service. -/
def register_endpoint (db : DB) (email password : String) :
    Except HTTPError User × DB :=
  match validate_user_create email password with
  | .error e => (.error e, db)
  | .ok _ => register_user db email password

/-! ## Concrete fixtures used by witnesses and counterexamples -/

/-- A stored digest for the fixture users. -/
def digestA : Digest := ⟨0, "password1"⟩

/-- Fixture user with id 1. -/
def userA : User := ⟨1, "a@x.com", digestA⟩

/-- Fixture user with id 2. -/
def userB : User := ⟨2, "b@x.com", ⟨1, "password2"⟩⟩

/-- Fixture task with id 10, owned by user 1. -/
def taskA1 : Task := ⟨10, 1, "T", none, none, false, 0, 0⟩

/-- Fixture task with id 11, owned by user 1. -/
def taskA2 : Task := ⟨11, 1, "U", some "d", some 5, false, 0, 0⟩

/-- Fixture store: two users, two tasks both owned by user 1. -/
def dbEx : DB := ⟨[userA, userB], [taskA1, taskA2], 3, 2⟩

/-! ## Helper lemmas -/

/-- With pairwise-distinct ids, `find?` by id locates exactly the member
task carrying that id. -/
theorem find_by_id_of_mem (l : List Task) (t : Task)
    (hnd : (l.map Task.id).Nodup) (ht : t ∈ l) :
    l.find? (fun x => x.id == t.id) = some t := by
  induction l with
  | nil => cases ht
  | cons a rest ih =>
    rcases List.mem_cons.mp ht with h | h
    · subst h
      simp [List.find?]
    · have hne : a.id ≠ t.id := by
        intro hEq
        have : t.id ∈ rest.map Task.id := List.mem_map_of_mem Task.id h
        rw [← hEq] at this
        exact (List.nodup_cons.mp (by simpa using hnd)).1 this
      have hb : (a.id == t.id) = false := by
        simpa using hne
      simp only [List.find?, hb]
      exact ih (List.nodup_cons.mp (by simpa using hnd)).2 h

/-- `get_task` finds a member task by its id when the store keeps ids
unique. -/
theorem get_task_of_mem (db : DB) (t : Task)
    (hnd : (db.tasks.map Task.id).Nodup) (ht : t ∈ db.tasks) :
    get_task db t.id = some t :=
  find_by_id_of_mem db.tasks t hnd ht

/-! ## Claims -/

/-- Claim C1: `get_existing_task` checks existence strictly before
ownership — a task id absent from the store yields 404 `Task not found`
for every caller; a present task owned by someone else yields 403
`Unauthorized access`; a present task owned by the caller is returned. -/
theorem get_checks_existence_before_ownership (db : DB)
    (callerId taskId : Nat) :
    ((∀ t ∈ db.tasks, t.id ≠ taskId) →
      get_existing_task db callerId taskId = .error notFoundTask) ∧
    (∀ t, (db.tasks.map Task.id).Nodup → t ∈ db.tasks → t.id = taskId →
      (t.user_id ≠ callerId →
        get_existing_task db callerId taskId = .error forbiddenTask) ∧
      (t.user_id = callerId →
        get_existing_task db callerId taskId = .ok t)) := by
  constructor
  · intro habs
    have hget : get_task db taskId = none := by
      apply List.find?_eq_none.mpr
      intro x hx
      simpa using habs x hx
    simp [get_existing_task, hget]
  · intro t hnd ht hid
    have hget : get_task db taskId = some t := by
      rw [← hid]
      exact get_task_of_mem db t hnd ht
    constructor
    · intro hno
      simp [get_existing_task, hget, hno]
    · intro hyes
      simp [get_existing_task, hget, hyes]

/-- Witness for C1 on the fixture store: id 99 does not exist (404 for
caller 1), task 10 exists but is not owned by caller 2 (403), and task 10
is returned to its owner 1. -/
theorem get_checks_existence_before_ownership_witness :
    get_existing_task dbEx 1 99 = .error notFoundTask ∧
    get_existing_task dbEx 2 10 = .error forbiddenTask ∧
    get_existing_task dbEx 1 10 = .ok taskA1 :=
  ⟨(get_checks_existence_before_ownership dbEx 1 99).1 (by decide),
   ((get_checks_existence_before_ownership dbEx 2 10).2 taskA1 (by decide)
     (by decide) rfl).1 (by decide),
   ((get_checks_existence_before_ownership dbEx 1 10).2 taskA1 (by decide)
     (by decide) rfl).2 rfl⟩

/-- Claim C2: `list_user_tasks` fails with 404 `No tasks found` exactly
when the fetch of the callers page is empty, and otherwise returns that
fetch, all of whose tasks are owned by the caller. -/
theorem list_empty_is_error (db : DB) (callerId skip limit : Nat) :
    (get_tasks_for_user db callerId skip limit = [] ↔
      list_user_tasks db callerId skip limit = .error noTasksFound) ∧
    (get_tasks_for_user db callerId skip limit ≠ [] →
      list_user_tasks db callerId skip limit =
        .ok (get_tasks_for_user db callerId skip limit) ∧
      ∀ t ∈ get_tasks_for_user db callerId skip limit,
        t.user_id = callerId) := by
  constructor
  · constructor
    · intro h
      simp [list_user_tasks, h]
    · intro h
      by_contra hne
      simp [list_user_tasks, List.isEmpty_iff, hne] at h
  · intro h
    refine ⟨by simp [list_user_tasks, List.isEmpty_iff, h], ?_⟩
    intro t htmem
    have h1 : t ∈ (db.tasks.filter (fun x => x.user_id == callerId)).drop skip :=
      List.mem_of_mem_take htmem
    have h2 : t ∈ db.tasks.filter (fun x => x.user_id == callerId) :=
      List.mem_of_mem_drop h1
    have := (List.mem_filter.mp h2).2
    simpa using this

/-- Witness for C2 on the fixture store: caller 1 gets their two tasks,
caller 5 (who owns none) gets the 404. -/
theorem list_empty_is_error_witness :
    list_user_tasks dbEx 1 0 10 = .ok (get_tasks_for_user dbEx 1 0 10) ∧
    list_user_tasks dbEx 5 0 10 = .error noTasksFound :=
  ⟨((list_empty_is_error dbEx 1 0 10).2 (by decide)).1,
   (list_empty_is_error dbEx 5 0 10).1.mp (by decide)⟩

/-- Claim C3: a committed update changes only the fields present in the
body — id, owner and creation time are always untouched, every omitted
field keeps its prior value, and the particular body carrying only
`completed` leaves title, description and due date unchanged. -/
theorem update_frame (now : Nat) (t : Task) (u : TaskUpdate) :
    (update_task now t u).id = t.id ∧
    (update_task now t u).user_id = t.user_id ∧
    (update_task now t u).created_at = t.created_at ∧
    (u.title = none → (update_task now t u).title = t.title) ∧
    (u.description = none →
      (update_task now t u).description = t.description) ∧
    (u.due_date = none → (update_task now t u).due_date = t.due_date) ∧
    (u.completed = none → (update_task now t u).completed = t.completed) ∧
    (∀ b : Bool,
      (update_task now t { completed := some b }).title = t.title ∧
      (update_task now t { completed := some b }).description =
        t.description ∧
      (update_task now t { completed := some b }).due_date = t.due_date ∧
      (update_task now t { completed := some b }).completed = b) := by
  have hfields : ∀ v : TaskUpdate,
      (update_task now t v).title = (applyUpdates t v).title ∧
      (update_task now t v).description = (applyUpdates t v).description ∧
      (update_task now t v).due_date = (applyUpdates t v).due_date ∧
      (update_task now t v).completed = (applyUpdates t v).completed ∧
      (update_task now t v).id = (applyUpdates t v).id ∧
      (update_task now t v).user_id = (applyUpdates t v).user_id ∧
      (update_task now t v).created_at = (applyUpdates t v).created_at := by
    intro v
    by_cases h : applyUpdates t v = t
    · simp [update_task, h]
    · simp [update_task, h]
  refine ⟨?_, ?_, ?_, ?_, ?_, ?_, ?_, ?_⟩
  · rw [(hfields u).2.2.2.2.1]; rfl
  · rw [(hfields u).2.2.2.2.2.1]; rfl
  · rw [(hfields u).2.2.2.2.2.2]; rfl
  · intro h; rw [(hfields u).1]; simp [applyUpdates, h]
  · intro h; rw [(hfields u).2.1]; simp [applyUpdates, h]
  · intro h; rw [(hfields u).2.2.1]; simp [applyUpdates, h]
  · intro h; rw [(hfields u).2.2.2.1]; simp [applyUpdates, h]
  · intro b
    refine ⟨?_, ?_, ?_, ?_⟩
    · rw [(hfields _).1]; rfl
    · rw [(hfields _).2.1]; rfl
    · rw [(hfields _).2.2.1]; rfl
    · rw [(hfields _).2.2.2.1]; rfl

/-- Witness for C3: flipping only `completed` on the fixture task keeps
title, description and due date. -/
theorem update_frame_witness :
    taskA1.title = "T" ∧
    (update_task 7 taskA1 { completed := some true }).title = taskA1.title ∧
    (update_task 7 taskA1 { completed := some true }).description =
      taskA1.description ∧
    (update_task 7 taskA1 { completed := some true }).due_date =
      taskA1.due_date ∧
    (update_task 7 taskA1 { completed := some true }).completed = true :=
  ⟨rfl,
   ((update_frame 7 taskA1 { completed := some true }).2.2.2.2.2.2.2
     true).1,
   ((update_frame 7 taskA1 { completed := some true }).2.2.2.2.2.2.2
     true).2.1,
   ((update_frame 7 taskA1 { completed := some true }).2.2.2.2.2.2.2
     true).2.2.1,
   ((update_frame 7 taskA1 { completed := some true }).2.2.2.2.2.2.2
     true).2.2.2⟩

/-- Counterexample to C4 as stated: the empty body is a successful
update — `change_task` returns the task and the store is untouched — yet
the updated timestamp stays 0 instead of becoming 999.  With no field
set, the `setattr` loop writes nothing, the commit emits no UPDATE, and
the `onupdate` clock of `updated_at` never fires. -/
theorem updated_at_empty_update_counterexample :
    change_task dbEx 1 10 {} 999 = .ok (taskA1, dbEx) ∧
    taskA1.updated_at = 0 ∧ (0 : Nat) ≠ 999 := by
  exact ⟨rfl, rfl, by decide⟩

/-- Claim C4 (amended): a successful update refreshes the last-updated
timestamp exactly when the body changes some stored column value; a body
that sets nothing, or only repeats the current values, leaves the
timestamp (and the whole row) untouched. -/
theorem updated_at_refreshed_iff_changed (now : Nat) (t : Task)
    (u : TaskUpdate) :
    (applyUpdates t u ≠ t → (update_task now t u).updated_at = now) ∧
    (applyUpdates t u = t → update_task now t u = t) := by
  constructor
  · intro h; simp [update_task, h]
  · intro h; simp [update_task, h]

/-- Witness for the amended C4: flipping `completed` on the fixture task
is a real change, and the timestamp becomes the update time 7. -/
theorem updated_at_refreshed_iff_changed_witness :
    applyUpdates taskA1 { completed := some true } ≠ taskA1 ∧
    (update_task 7 taskA1 { completed := some true }).updated_at = 7 :=
  ⟨by decide,
   (updated_at_refreshed_iff_changed 7 taskA1
     { completed := some true }).1 (by decide)⟩

/-- Claim C5: registration with an email already present fails with 400
`Email already registered` and leaves the store unchanged; with a fresh
email it appends exactly one new user whose stored digest is the hash of
the given password, and returns that user. -/
theorem register_conflict_or_persist (db : DB) (email password : String) :
    ((∃ u ∈ db.users, u.email = email) →
      register_user db email password = (.error emailRegistered, db)) ∧
    ((∀ u ∈ db.users, u.email ≠ email) →
      register_user db email password =
        (.ok ⟨db.nextUserId, email, get_password_hash db.nextSaltState password⟩,
         { db with
             users := db.users ++
               [⟨db.nextUserId, email, get_password_hash db.nextSaltState password⟩]
             nextUserId := db.nextUserId + 1
             nextSaltState := db.nextSaltState + 1 })) := by
  constructor
  · rintro ⟨u, hu, hmail⟩
    have hfind : ∃ w, get_user_by_email db email = some w := by
      rcases hx : get_user_by_email db email with _ | w
      · exfalso
        have := List.find?_eq_none.mp hx u hu
        simp [hmail] at this
      · exact ⟨w, rfl⟩
    rcases hfind with ⟨w, hw⟩
    simp [register_user, hw]
  · intro hnone
    have hfind : get_user_by_email db email = none := by
      apply List.find?_eq_none.mpr
      intro x hx
      simpa using hnone x hx
    simp [register_user, hfind, create_user]

/-- Witness for C5 on the fixture store: re-registering `a@x.com` is a
conflict leaving the store as it was; registering `c@x.com` appends the
one new user with the hashed password. -/
theorem register_conflict_or_persist_witness :
    register_user dbEx "a@x.com" "password9" = (.error emailRegistered, dbEx) ∧
    register_user dbEx "c@x.com" "password9" =
      (.ok ⟨3, "c@x.com", get_password_hash 2 "password9"⟩,
       { dbEx with
           users := dbEx.users ++ [⟨3, "c@x.com", get_password_hash 2 "password9"⟩]
           nextUserId := 4
           nextSaltState := 3 }) :=
  ⟨(register_conflict_or_persist dbEx "a@x.com" "password9").1
     ⟨userA, by decide, rfl⟩,
   (register_conflict_or_persist dbEx "c@x.com" "password9").2 (by decide)⟩

/-- Claim C8: a password verifies against its own hash; a hash of a
different password rejects it; and two successive hashing calls on the
same password yield distinct digests, both of which verify.
The hash primitive is the ideal salted hash modelled from the spec. -/
theorem hash_verify_laws :
    (∀ (salt : Nat) (P : String),
      verify_password P (get_password_hash salt P) = true) ∧
    (∀ (salt : Nat) (P P2 : String), P ≠ P2 →
      verify_password P (get_password_hash salt P2) = false) ∧
    (∀ (saltState : Nat) (P : String),
      (hash_call saltState P).1 ≠
        (hash_call (hash_call saltState P).2 P).1 ∧
      verify_password P (hash_call saltState P).1 = true ∧
      verify_password P (hash_call (hash_call saltState P).2 P).1 = true) := by
  refine ⟨?_, ?_, ?_⟩
  · intro salt P
    simp [verify_password, get_password_hash]
  · intro salt P P2 h
    simp [verify_password, get_password_hash, h]
  · intro saltState P
    refine ⟨?_, ?_, ?_⟩
    · simp [hash_call, get_password_hash]
    · simp [hash_call, verify_password, get_password_hash]
    · simp [hash_call, verify_password, get_password_hash]

/-- Witness for C8 at concrete passwords and salt state 0. -/
theorem hash_verify_laws_witness :
    verify_password "password1" (get_password_hash 0 "password1") = true ∧
    ("password1" : String) ≠ "password2" ∧
    verify_password "password1" (get_password_hash 0 "password2") = false ∧
    (hash_call 0 "password1").1 ≠ (hash_call (hash_call 0 "password1").2 "password1").1 :=
  ⟨hash_verify_laws.1 0 "password1",
   by decide,
   hash_verify_laws.2.1 0 "password1" "password2" (by decide),
   (hash_verify_laws.2.2 0 "password1").1⟩

/-- Claim C10: the register route rejects a password shorter than 8
characters at the validation boundary with a 422, before the service
runs, leaving the store unchanged — no user is created. -/
theorem short_password_rejected (db : DB) (email password : String)
    (h : password.length < 8) :
    register_endpoint db email password =
      (.error ⟨422, "validation error"⟩, db) := by
  simp [register_endpoint, validate_user_create, h]

/-- Witness for C10: a 7-character password on the fixture store is
rejected and the store is untouched. -/
theorem short_password_rejected_witness :
    ("1234567" : String).length < 8 ∧
    register_endpoint dbEx "c@x.com" "1234567" =
      (.error ⟨422, "validation error"⟩, dbEx) :=
  ⟨by decide, short_password_rejected dbEx "c@x.com" "1234567" (by decide)⟩

/-- Counterexample to C6 as stated: the empty-string subject.  Issued at
time 0 the token expires at 3600, so decoding at time 0 is strictly
before expiry, yet it fails: `decode_access_token` runs the Python test
`if not sub`, and the empty string is falsy just like a missing claim. -/
theorem token_empty_subject_counterexample :
    (create_access_token "" 0).claims.exp = 3600 ∧ (0 : Int) < 3600 ∧
    decode_access_token (create_access_token "" 0) 0 =
      .error "Token missing subject" :=
  ⟨rfl, by decide, rfl⟩

/-- Claim C6 (amended): a token issued for a nonempty subject S resolves
back to S at any time up to its expiry; a token whose expiry lies
strictly in the past fails to resolve; a token without a subject claim
fails to resolve. -/
theorem token_roundtrip (S : String) (tok : Token) (now tnow texp tmiss : Int) :
    (S ≠ "" → tnow ≤ now + ACCESS_TOKEN_EXPIRE_MINUTES * 60 →
      decode_access_token (create_access_token S now) tnow = .ok S) ∧
    (tok.claims.exp < texp → (decode_access_token tok texp).isOk = false) ∧
    (tok.claims.sub = none → (decode_access_token tok tmiss).isOk = false) := by
  refine ⟨?_, ?_, ?_⟩
  · intro hS hfresh
    have hnexp : ¬ (now + ACCESS_TOKEN_EXPIRE_MINUTES * 60 < tnow) :=
      not_lt.mpr hfresh
    simp [decode_access_token, create_access_token, jwtEncode, jwtDecode,
      hnexp, hS]
  · intro hexp
    by_cases hk : tok.key = SECRET_KEY
    · simp [decode_access_token, jwtDecode, hk, hexp, Except.isOk, Except.toBool]
    · simp [decode_access_token, jwtDecode, hk, Except.isOk, Except.toBool]
  · intro hsub
    by_cases hk : tok.key = SECRET_KEY
    · by_cases hexp : tok.claims.exp < tmiss
      · simp [decode_access_token, jwtDecode, hk, hexp, Except.isOk, Except.toBool]
      · simp [decode_access_token, jwtDecode, hk, hexp, hsub, Except.isOk, Except.toBool]
    · simp [decode_access_token, jwtDecode, hk, Except.isOk, Except.toBool]

/-- Witness for the amended C6: the subject `"1"` issued at time 0 decodes
at time 10; a well-signed token already expired at time 0 does not decode
at time 5; a well-signed unexpired token without a subject does not
decode. -/
theorem token_roundtrip_witness :
    decode_access_token (create_access_token "1" 0) 10 = .ok "1" ∧
    (decode_access_token ⟨⟨0, some "1"⟩, SECRET_KEY⟩ 5).isOk = false ∧
    (decode_access_token ⟨⟨100, none⟩, SECRET_KEY⟩ 5).isOk = false :=
  ⟨(token_roundtrip "1" ⟨⟨0, some "1"⟩, SECRET_KEY⟩ 0 10 5 5).1
     (by decide) (by decide),
   (token_roundtrip "1" ⟨⟨0, some "1"⟩, SECRET_KEY⟩ 0 10 5 5).2.1
     (by decide),
   (token_roundtrip "1" ⟨⟨100, none⟩, SECRET_KEY⟩ 0 10 5 5).2.2 rfl⟩

/-- Claim C7: the first two pages of size k of a users task list are the
first 2k caller-owned rows in insertion order; with unique primary keys
the two pages carry disjoint id sets, and as soon as 2k reaches the
number N of owned tasks the two pages together are exactly the whole
list. -/
theorem pagination_pages (db : DB) (callerId k : Nat) :
    (get_tasks_for_user db callerId 0 k ++ get_tasks_for_user db callerId k k =
      (db.tasks.filter (fun t => t.user_id == callerId)).take (k + k)) ∧
    ((db.tasks.map Task.id).Nodup →
      ∀ i ∈ (get_tasks_for_user db callerId 0 k).map Task.id,
        i ∉ (get_tasks_for_user db callerId k k).map Task.id) ∧
    ((db.tasks.filter (fun t => t.user_id == callerId)).length ≤ k + k →
      get_tasks_for_user db callerId 0 k ++ get_tasks_for_user db callerId k k =
        db.tasks.filter (fun t => t.user_id == callerId)) := by
  have hsplit : get_tasks_for_user db callerId 0 k ++
      get_tasks_for_user db callerId k k =
      (db.tasks.filter (fun t => t.user_id == callerId)).take (k + k) := by
    simp [get_tasks_for_user]
    exact (List.take_add _ k k).symm
  refine ⟨hsplit, ?_, ?_⟩
  · intro hnd
    have hndl : ((db.tasks.filter (fun t => t.user_id == callerId)).map
        Task.id).Nodup :=
      hnd.sublist ((List.filter_sublist db.tasks).map Task.id)
    have hndt : (((db.tasks.filter (fun t => t.user_id == callerId)).take
        (k + k)).map Task.id).Nodup :=
      hndl.sublist ((List.take_sublist (k + k) _).map Task.id)
    rw [← hsplit, List.map_append] at hndt
    exact fun i hi => List.disjoint_of_nodup_append hndt hi
  · intro hlen
    rw [hsplit]
    exact List.take_of_length_le hlen

/-- Witness for C7 on the fixture store with k = 1: pages `[taskA1]` and
`[taskA2]`, disjoint ids, and together the whole owned list. -/
theorem pagination_pages_witness :
    (get_tasks_for_user dbEx 1 0 1 ++ get_tasks_for_user dbEx 1 1 1 =
      (dbEx.tasks.filter (fun t => t.user_id == 1)).take 2) ∧
    (10 : Nat) ∈ (get_tasks_for_user dbEx 1 0 1).map Task.id ∧
    (10 : Nat) ∉ (get_tasks_for_user dbEx 1 1 1).map Task.id ∧
    (get_tasks_for_user dbEx 1 0 1 ++ get_tasks_for_user dbEx 1 1 1 =
      dbEx.tasks.filter (fun t => t.user_id == 1)) :=
  ⟨(pagination_pages dbEx 1 1).1,
   by decide,
   (pagination_pages dbEx 1 1).2.1 (by decide) 10 (by decide),
   (pagination_pages dbEx 1 1).2.2 (by decide)⟩

/-- Claim C9: whenever the initial `get_existing_task` of `change_task`
returns a task, that task is owned by the caller, so the repeated
existence and ownership checks inside `change_task` are dead code:
`change_task` is exactly the initial get followed by the update. -/
theorem change_task_rechecks_dead (db : DB) (callerId taskId : Nat)
    (u : TaskUpdate) (now : Nat) :
    (∀ t, get_existing_task db callerId taskId = .ok t →
      t.user_id = callerId) ∧
    change_task db callerId taskId u now =
      (get_existing_task db callerId taskId).map
        (fun t => (update_task now t u, replaceTask db (update_task now t u))) := by
  have hown : ∀ t, get_existing_task db callerId taskId = .ok t →
      t.user_id = callerId := by
    intro t h
    rcases hx : get_task db taskId with _ | t0
    · simp [get_existing_task, hx] at h
    · by_cases ho : t0.user_id = callerId
      · have : t0 = t := by
          simpa [get_existing_task, hx, ho] using h
        rw [← this]; exact ho
      · simp [get_existing_task, hx, ho] at h
  refine ⟨hown, ?_⟩
  rcases hy : get_existing_task db callerId taskId with e | t
  · simp [change_task, hy, Except.map]
  · have := hown t hy
    simp [change_task, hy, taskTruthy, this, Except.map]

/-- Witness for C9 on the fixture store: the get of task 10 for caller 1
returns a task owned by 1, and `change_task` agrees with the recheck-free
composition. -/
theorem change_task_rechecks_dead_witness :
    taskA1.user_id = 1 ∧
    change_task dbEx 1 10 { completed := some true } 3 =
      (get_existing_task dbEx 1 10).map
        (fun t => (update_task 3 t { completed := some true },
          replaceTask dbEx (update_task 3 t { completed := some true }))) :=
  ⟨(change_task_rechecks_dead dbEx 1 10 { completed := some true } 3).1
     taskA1 rfl,
   (change_task_rechecks_dead dbEx 1 10 { completed := some true } 3).2⟩

end Todo
